import Mathlib

/-!
Shallow embedding of the credential-and-cache path of the Express/TypeScript
API server (user registration/login and item CRUD backed by a document store
with an in-process node-cache in front of reads).

Embedded from the sources:
- the node-cache wrapper used by both services (keys to values with a
  per-entry expiry timestamp; stdTTL default, lazy expiry on read);
- the argon2-backed credential handling of the user model (pre-save hashing
  hook and comparePassword);
- UserService.registerUser / findUserByEmail / authenticateUser / clearCache;
- ItemService.createItem / getAllItems / invalidateCache;
- the controller catch-blocks that map error messages to HTTP status codes.

Time is modelled as an explicit millisecond clock passed to each operation
(the source reads Date.now()); the document store is a list of records; the
asynchronous calls are sequentialized, which is faithful because each service
method awaits its steps in order.
-/

set_option autoImplicit false

/-- Substring test, mirroring JavaScript's String.prototype.includes as used
    by the controllers to classify error messages: the pattern occurs when it
    is a prefix of some tail of the string. -/
def containsSub (s pat : String) : Bool :=
  s.data.tails.any (fun t => pat.data.isPrefixOf t)

/-- JavaScript's toLowerCase on the ASCII emails this code handles:
    lowercase each character. -/
def toLowerString (s : String) : String := ⟨s.data.map Char.toLower⟩

/-! ## node-cache model

The source constructs NodeCache with a stdTTL (seconds), checkperiod 60,
useClones false and maxKeys 10000. A set entry records an absolute expiry
timestamp now + ttl*1000 (0 meaning unlimited, node-cache's convention);
get returns the value only when the entry has not expired (node-cache also
deletes the expired entry on read, a side effect invisible to reads, which
we omit); the periodic checkperiod sweep is modelled by evictExpired. -/

/-- One cache entry: the stored value and its absolute expiry time in ms
    (0 = unlimited, node-cache's encoding of ttl 0). -/
structure CacheEntry (α : Type) where
  value : α
  expiry : Nat
  deriving DecidableEq

/-- The node-cache instance: the key-indexed store of live entries (a plain
    JavaScript object in the library) plus the configured default TTL in
    seconds. -/
structure NodeCache (α : Type) where
  store : String → Option (CacheEntry α)
  stdTTL : Nat

namespace NodeCache

variable {α : Type}

/-- The empty cache with the given default TTL, as built by the
    constructor's new NodeCache({stdTTL, ...}). -/
def empty (stdTTL : Nat) : NodeCache α := ⟨fun _ => none, stdTTL⟩

/-- set(key, value, ttl): stores the value under the key with expiry
    now + ttl*1000 (0 = unlimited), replacing any previous entry. -/
def setEntry (c : NodeCache α) (key : String) (v : α) (ttl : Nat) (now : Nat) : NodeCache α :=
  { c with store := fun k =>
      if k = key then some ⟨v, if ttl = 0 then 0 else now + ttl * 1000⟩ else c.store k }

/-- set(key, value) with the instance's default stdTTL. -/
def set (c : NodeCache α) (key : String) (v : α) (now : Nat) : NodeCache α :=
  c.setEntry key v c.stdTTL now

/-- An entry is expired when it has a finite expiry strictly in the past
    (node-cache's check is data.t !== 0 && data.t < now). -/
def expired (e : CacheEntry α) (now : Nat) : Bool :=
  e.expiry ≠ 0 && e.expiry < now

/-- get(key): the stored value, unless absent or expired (node-cache also
    deletes an expired entry on read, a side effect invisible to reads,
    which we omit). -/
def get (c : NodeCache α) (key : String) (now : Nat) : Option α :=
  match c.store key with
  | none => none
  | some e => if expired e now then none else some e.value

/-- del(key): drops the entry for the key. -/
def del (c : NodeCache α) (key : String) : NodeCache α :=
  { c with store := fun k => if k = key then none else c.store k }

/-- flushAll(): drops every entry. -/
def flushAll (c : NodeCache α) : NodeCache α :=
  { c with store := fun _ => none }

/-- The periodic checkperiod sweep: deletes every entry already expired at
    sweep time. -/
def evictExpired (c : NodeCache α) (now : Nat) : NodeCache α :=
  { c with store := fun k =>
      match c.store k with
      | none => none
      | some e => if expired e now then none else some e }

end NodeCache

/-! ## argon2 model

argon2 is an external library; it is modelled symbolically by its contract:
hash produces a well-formed digest bound to the hashed plaintext, verify
resolves to a boolean on any well-formed digest (true exactly on the hashed
plaintext) and rejects (throws) on a corrupt digest. -/

/-- A stored password digest: either a well-formed argon2 hash of some
    plaintext, or a corrupt/malformed digest. -/
inductive Argon2Hash : Type
  | digest (plaintext : String)
  | corrupt
  deriving DecidableEq

namespace Argon2

/-- argon2.hash(plaintext, ARGON2_OPTIONS): a well-formed digest. -/
def hash (p : String) : Argon2Hash := .digest p

/-- argon2.verify(stored, candidate): resolves false on a mismatch and true
    on a match; rejects on a corrupt digest. -/
def verify : Argon2Hash → String → Except String Bool
  | .digest p, candidate => .ok (p == candidate)
  | .corrupt, _ => .error ("pchstr must contain a $ as first char")

end Argon2

/-! ## User model (user.model.ts) -/

/-- A persisted user document. The pre-save hook has already hashed the
    password, so the stored password is an Argon2Hash. -/
structure UserRecord where
  firstName : String
  lastName : String
  email : String
  password : Argon2Hash
  isVerified : Bool
  deriving DecidableEq

/-- comparePassword(candidate): argon2.verify on the stored digest; a
    rejection is rethrown as a Password comparison error. -/
def UserRecord.comparePassword (u : UserRecord) (candidate : String) : Except String Bool :=
  match Argon2.verify u.password candidate with
  | .ok b => .ok b
  | .error e => .error ("Password comparison error: Error: " ++ e)

/-- The public projection returned by the user service: the user record view
    with the password field removed. -/
structure UserPublic where
  firstName : String
  lastName : String
  email : String
  isVerified : Bool
  deriving DecidableEq

/-- A value stored in the user cache. The source caches plain JavaScript
    objects, which may or may not carry a password field depending on the
    call site; the optional password records which one was stored. -/
structure CachedUserValue where
  firstName : String
  lastName : String
  email : String
  password : Option Argon2Hash
  isVerified : Bool
  deriving DecidableEq

/-- user.toObject() on a fetched document that selected +password: every
    field is present, password included. -/
def UserRecord.toObject (u : UserRecord) : CachedUserValue :=
  ⟨u.firstName, u.lastName, u.email, some u.password, u.isVerified⟩

/-- The { password, ...userWithoutPassword } destructuring: all fields but
    the password. -/
def UserRecord.withoutPassword (u : UserRecord) : CachedUserValue :=
  ⟨u.firstName, u.lastName, u.email, none, u.isVerified⟩

/-- The public projection as returned to the caller. -/
def UserRecord.toPublic (u : UserRecord) : UserPublic :=
  ⟨u.firstName, u.lastName, u.email, u.isVerified⟩

/-! ## class-validator model

class-validator is an external library; the decorators on the models are
IsEmail() and MinLength(8) for users, IsNotEmpty and Min(0) for items. -/

/-- Splitting a character list on a separator character, used to model the
    shape checks of the email validator. -/
def splitOnChar (c : Char) : List Char → List (List Char)
  | [] => [[]]
  | x :: xs =>
    match splitOnChar c xs with
    | [] => [[]]
    | h :: t => if x = c then [] :: h :: t else (x :: h) :: t

/-- Model of class-validator's IsEmail, reduced to the essential shape it
    enforces: one at-sign separating a nonempty local part from a nonempty
    dotted domain with nonempty labels. -/
def isEmailShape (s : String) : Bool :=
  match splitOnChar '@' s.data with
  | [lp, domain] =>
      (!lp.isEmpty) && (!domain.isEmpty) &&
        ((splitOnChar '.' domain).length ≥ 2) &&
        (splitOnChar '.' domain).all (fun l => !l.isEmpty)
  | _ => false

/-- validate(user): the constraint messages produced by the IsEmail() and
    MinLength(8) decorators on UserModel, checked on the document built from
    the registration input (the password is still the plaintext at this
    point; hashing happens in the pre-save hook). -/
def validateUserInput (email password : String) : List String :=
  (if isEmailShape email then [] else ["email must be an email"]) ++
    (if password.length ≥ 8 then []
     else ["password must be longer than or equal to 8 characters"])

/-! ## UserService -/

/-- Registration input: the four request-body fields. -/
structure RegisterUserInput where
  firstName : String
  lastName : String
  email : String
  password : String
  deriving DecidableEq

/-- The state a UserService method touches: the users collection of the
    document store and the service's node-cache (stdTTL 300, checkperiod 60,
    useClones false, maxKeys 10000 as configured in the constructor). -/
structure UserServiceState where
  db : List UserRecord
  userCache : NodeCache CachedUserValue

/-- A fresh UserService: empty store, empty cache with stdTTL 300 seconds. -/
def UserService.init : UserServiceState := ⟨[], NodeCache.empty 300⟩

/-- registerUser(userData): normalizes the email to lowercase, rejects when
    a record with that email exists, validates with class-validator only
    outside production, saves (the pre-save hook hashing the password),
    caches the password-stripped object under user:<email>, and returns it;
    every thrown error is rewrapped as User registration failed. env is
    process.env.NODE_ENV and now the current clock in ms. -/
def UserService.registerUser (env : String) (now : Nat) (st : UserServiceState)
    (userData : RegisterUserInput) : Except String (UserPublic × UserServiceState) :=
  let email := toLowerString userData.email
  match st.db.find? (fun u => u.email == email) with
  | some _ => .error ("User registration failed: User with this email already exists")
  | none =>
      let errors := validateUserInput email userData.password
      if env ≠ "production" ∧ errors ≠ [] then
        .error ("User registration failed: Validation failed: " ++
          String.intercalate ("; ") errors)
      else
        let savedUser : UserRecord :=
          ⟨userData.firstName, userData.lastName, email,
            Argon2.hash userData.password, false⟩
        let userWithoutPassword := savedUser.withoutPassword
        .ok (savedUser.toPublic,
          ⟨st.db ++ [savedUser],
            st.userCache.set ("user:" ++ email) userWithoutPassword now⟩)

/-- findUserByEmail(email): serves the cached object when present, else
    queries the store selecting +password, and on a hit stores
    user.toObject() in the cache (the source comment says the password is
    excluded, but toObject on a +password query carries the password field)
    and returns the document. -/
def UserService.findUserByEmail (now : Nat) (st : UserServiceState) (email : String) :
    Option CachedUserValue × UserServiceState :=
  let normalizedEmail := toLowerString email
  match st.userCache.get ("user:" ++ normalizedEmail) now with
  | some cachedUser => (some cachedUser, st)
  | none =>
      match st.db.find? (fun u => u.email == normalizedEmail) with
      | none => (none, st)
      | some u =>
          let userForCache := u.toObject
          (some userForCache,
            { st with userCache :=
                st.userCache.set ("user:" ++ normalizedEmail) userForCache now })

/-- authenticateUser(email, password): queries the store directly (with
    +password); a missing record and a failed comparePassword both throw
    Invalid email or password, a comparePassword rejection propagates; on
    success the password-stripped object refreshes the cache and is
    returned. Every thrown error is rewrapped as Authentication failed. -/
def UserService.authenticateUser (now : Nat) (st : UserServiceState)
    (email password : String) : Except String (UserPublic × UserServiceState) :=
  let normalizedEmail := toLowerString email
  match st.db.find? (fun u => u.email == normalizedEmail) with
  | none => .error ("Authentication failed: Invalid email or password")
  | some user =>
      match user.comparePassword password with
      | .error e => .error ("Authentication failed: " ++ e)
      | .ok false => .error ("Authentication failed: Invalid email or password")
      | .ok true =>
          .ok (user.toPublic,
            { st with userCache :=
                st.userCache.set ("user:" ++ normalizedEmail) user.withoutPassword now })

/-- clearCache(email?): deletes one cached user entry or flushes them all. -/
def UserService.clearCache (st : UserServiceState) (email : Option String) :
    UserServiceState :=
  match email with
  | some e => { st with userCache := st.userCache.del ("user:" ++ toLowerString e) }
  | none => { st with userCache := st.userCache.flushAll }

/-! ## Controller error mapping (user.controller.ts) -/

/-- The register catch-block: 409 when the message includes already exists,
    400 when it includes Validation failed, else 500. -/
def registerStatusCode (errorMessage : String) : Nat :=
  if containsSub errorMessage ("already exists") then 409
  else if containsSub errorMessage ("Validation failed") then 400
  else 500

/-- The login handler's status code: 400 when a required field is missing
    (falsy), 200 on successful authentication, and 401 from the catch-block
    on every thrown error. -/
def loginStatusCode (now : Nat) (st : UserServiceState) (email password : String) : Nat :=
  if email = "" ∨ password = "" then 400
  else
    match UserService.authenticateUser now st email password with
    | .ok _ => 200
    | .error _ => 401

/-! ## Item model and ItemService (item.model.ts, item.service.ts) -/

/-- A persisted item document. The store assigns the id. -/
structure ItemRecord where
  id : Nat
  name : String
  price : Int
  description : Option String
  deriving DecidableEq

/-- Item creation input: the request-body fields. -/
structure CreateItemInput where
  name : String
  price : Int
  description : Option String
  deriving DecidableEq

/-- A value stored in the item cache: either one item (under item_<id>) or
    the aggregate list (under all_items). JavaScript stores both untyped in
    the same NodeCache instance. -/
inductive ItemCacheValue : Type
  | one (it : ItemRecord)
  | all (items : List ItemRecord)
  deriving DecidableEq

/-- Reading a cached value as the item list getAllItems expects: the source
    casts the cached value unchecked; a single item under all_items never
    occurs in states this service produces, since the key spaces item_<id>
    and all_items are disjoint. -/
def ItemCacheValue.asAll : ItemCacheValue → List ItemRecord
  | .all items => items
  | .one it => [it]

/-- validate(item): the constraint messages of the IsNotEmpty and Min(0)
    decorators on ItemModel. -/
def validateItemInput (name : String) (price : Int) : List String :=
  (if name = "" then ["Item name is required"] else []) ++
    (if price < 0 then ["Price must be greater than or equal to 0"] else [])

/-- The state an ItemService method touches: the items collection and the
    service's node-cache (stdTTL 600, checkperiod 60, useClones false,
    maxKeys 10000 as configured in the constructor), plus the id the store
    hands to the next insert. -/
structure ItemServiceState where
  db : List ItemRecord
  itemCache : NodeCache ItemCacheValue
  nextId : Nat

/-- A fresh ItemService: empty store, empty cache with stdTTL 600 seconds. -/
def ItemService.init : ItemServiceState := ⟨[], NodeCache.empty 600, 0⟩

/-- createItem(itemData): validates with class-validator (unconditionally,
    unlike the user path), throws Validation failed listing the constraint
    messages, else saves and caches the item under item_<id> with the
    default TTL, returning it. -/
def ItemService.createItem (now : Nat) (st : ItemServiceState)
    (itemData : CreateItemInput) : Except String (ItemRecord × ItemServiceState) :=
  let errors := validateItemInput itemData.name itemData.price
  if errors ≠ [] then
    .error ("Validation failed: " ++ String.intercalate (", ") errors)
  else
    let item : ItemRecord := ⟨st.nextId, itemData.name, itemData.price, itemData.description⟩
    .ok (item,
      ⟨st.db ++ [item],
        st.itemCache.set ("item_" ++ toString item.id) (.one item) now,
        st.nextId + 1⟩)

/-- getAllItems(): serves the cached all_items entry when present, else
    fetches every item from the store and caches the list under all_items
    with an explicit TTL of 300 seconds (shorter than the 600-second
    default). -/
def ItemService.getAllItems (now : Nat) (st : ItemServiceState) :
    List ItemRecord × ItemServiceState :=
  match st.itemCache.get ("all_items") now with
  | some cachedItems => (cachedItems.asAll, st)
  | none =>
      (st.db,
        { st with itemCache := st.itemCache.setEntry ("all_items") (.all st.db) 300 now })

/-- invalidateCache(id?): deletes the item_<id> entry when an id is given,
    and in every call deletes the all_items entry. -/
def ItemService.invalidateCache (st : ItemServiceState) (id : Option Nat) :
    ItemServiceState :=
  let c := match id with
    | some i => st.itemCache.del ("item_" ++ toString i)
    | none => st.itemCache
  { st with itemCache := c.del ("all_items") }

/-! ## Helper lemmas about the cache model -/

namespace NodeCache

variable {α : Type}

theorem get_setEntry_self (c : NodeCache α) (k : String) (v : α) (ttl t0 now : Nat)
    (httl : ttl ≠ 0) :
    (c.setEntry k v ttl t0).get k now =
      if t0 + ttl * 1000 < now then none else some v := by
  have hne : t0 + ttl * 1000 ≠ 0 := by
    have h1 : 1 ≤ ttl := Nat.one_le_iff_ne_zero.mpr httl
    omega
  simp only [get, setEntry, httl, if_false, if_pos rfl]
  by_cases hlt : t0 + ttl * 1000 < now <;> simp [expired, hne, hlt]

theorem get_setEntry_ne (c : NodeCache α) (k k' : String) (v : α) (ttl t0 now : Nat)
    (h : k' ≠ k) :
    (c.setEntry k v ttl t0).get k' now = c.get k' now := by
  simp only [get, setEntry, if_neg h]

theorem get_del_self (c : NodeCache α) (k : String) (now : Nat) :
    (c.del k).get k now = none := by
  simp [get, del]

theorem get_del_ne (c : NodeCache α) (a k : String) (now : Nat) (h : k ≠ a) :
    (c.del a).get k now = c.get k now := by
  simp only [get, del, if_neg h]

theorem get_flushAll (c : NodeCache α) (k : String) (now : Nat) :
    (c.flushAll).get k now = none := rfl

/-- A checkperiod sweep never changes what a later read observes: the sweep
    only removes entries that the read would have rejected as expired. -/
theorem get_evictExpired (c : NodeCache α) (k : String) (tS now : Nat) (h : tS ≤ now) :
    (c.evictExpired tS).get k now = c.get k now := by
  simp only [get, evictExpired]
  cases hs : c.store k with
  | none => rfl
  | some e =>
    by_cases he : expired e tS
    · have hnow : expired e now = true := by
        simp only [expired, Bool.and_eq_true, decide_eq_true_eq] at he ⊢
        omega
      simp [he, hnow]
    · simp [he]

end NodeCache

/-- The per-item keys item_<id> never collide with the aggregate key. -/
theorem itemKey_ne_allItems (s : String) : "item_" ++ s ≠ "all_items" := by
  obtain ⟨l⟩ := s
  intro h
  have h2 : ('i' :: 't' :: 'e' :: 'm' :: '_' :: l) = "all_items".data :=
    congrArg String.data h
  have h3 := congrArg List.head? h2
  simp at h3

/-! ## Claim theorems -/

/-- C7: password verification resolves to false on a legitimate mismatch
    without throwing, verify(hash(p), p) resolves to true, and an internal
    verification error (corrupt stored digest) surfaces as a thrown error,
    which is distinct from the boolean false of a wrong password. -/
theorem C7_verify_mismatch_vs_internal_error :
    (∀ p q : String, p ≠ q → Argon2.verify (Argon2.hash p) q = .ok false) ∧
    (∀ p : String, Argon2.verify (Argon2.hash p) p = .ok true) ∧
    (∀ (u : UserRecord) (q : String), u.password = Argon2Hash.corrupt →
      ∃ m : String, u.comparePassword q = .error m) ∧
    (∀ (u : UserRecord) (q m : String),
      u.comparePassword q = .error m → u.comparePassword q ≠ .ok false) := by
  refine ⟨?_, ?_, ?_, ?_⟩
  · intro p q h
    simp [Argon2.verify, Argon2.hash, h]
  · intro p
    simp [Argon2.verify, Argon2.hash]
  · intro u q hu
    exact ⟨"Password comparison error: Error: pchstr must contain a $ as first char",
      by simp [UserRecord.comparePassword, Argon2.verify, hu]⟩
  · intro u q m h hcon
    rw [h] at hcon
    exact Except.noConfusion hcon

/-- C7 witness: verify(hash("secret"), "wrong") is false and
    verify(hash("secret"), "secret") is true. -/
theorem C7_witness :
    Argon2.verify (Argon2.hash ("secret")) "wrong" = .ok false ∧
    Argon2.verify (Argon2.hash ("secret")) "secret" = .ok true :=
  ⟨C7_verify_mismatch_vs_internal_error.1 ("secret") "wrong" (by decide),
    C7_verify_mismatch_vs_internal_error.2.1 ("secret")⟩

/-- C8: an entry written with a finite TTL is never returned by a read
    performed after the TTL has elapsed, whether or not an eviction sweep
    ran in between (and a sweep never changes what a later read observes). -/
theorem C8_no_entry_after_ttl {α : Type} (c : NodeCache α) (key : String) (v : α)
    (ttl t0 t1 : Nat) (httl : ttl ≠ 0) (hexp : t0 + ttl * 1000 < t1) :
    (c.setEntry key v ttl t0).get key t1 = none ∧
    ∀ tS : Nat, tS ≤ t1 →
      ((c.setEntry key v ttl t0).evictExpired tS).get key t1 = none := by
  have h1 : (c.setEntry key v ttl t0).get key t1 = none := by
    rw [NodeCache.get_setEntry_self _ _ _ _ _ _ httl, if_pos hexp]
  exact ⟨h1, fun tS hS => by
    rw [NodeCache.get_evictExpired _ _ _ _ hS, h1]⟩

/-- C8 witness: a user-cache entry set at time 0 with a 1-second TTL misses
    on a read at 2000 ms, swept or not. -/
theorem C8_witness :
    ((NodeCache.empty 300 : NodeCache Nat).setEntry ("user:a") 7 1 0).get ("user:a") 2000 = none ∧
    (((NodeCache.empty 300 : NodeCache Nat).setEntry ("user:a") 7 1 0).evictExpired
        1500).get ("user:a") 2000 = none := by
  have h := C8_no_entry_after_ttl (NodeCache.empty 300 : NodeCache Nat) "user:a" 7 1 0 2000
    (by decide) (by decide)
  exact ⟨h.1, h.2 1500 (by decide)⟩

/-- C4 counterexample: with a per-item entry cached, invalidate with no id
    leaves that per-item entry in the cache, so it does not remove all
    cached item entries as the claim states. -/
theorem C4_counterexample :
    (ItemService.invalidateCache
        ⟨[], (NodeCache.empty 600).setEntry ("item_1")
          (ItemCacheValue.one ⟨1, "a", 5, none⟩) 600 0, 2⟩
        none).itemCache.get ("item_1") 0 =
      some (ItemCacheValue.one ⟨1, "a", 5, none⟩) := by decide

/-- C4 amended: invalidate with an id removes that item's entry and the
    aggregate all-items entry; invalidate with no id removes only the
    aggregate all-items entry, leaving every other entry untouched; in both
    cases the aggregate entry is removed. -/
theorem C4_invalidate_cache (st : ItemServiceState) (id : Nat) (now : Nat) :
    (ItemService.invalidateCache st (some id)).itemCache.get
        ("item_" ++ toString id) now = none ∧
    (ItemService.invalidateCache st (some id)).itemCache.get ("all_items") now = none ∧
    (ItemService.invalidateCache st none).itemCache.get ("all_items") now = none ∧
    ∀ k, k ≠ "all_items" →
      (ItemService.invalidateCache st none).itemCache.get k now =
        st.itemCache.get k now := by
  refine ⟨?_, ?_, ?_, ?_⟩
  · rw [show (ItemService.invalidateCache st (some id)).itemCache =
        (st.itemCache.del ("item_" ++ toString id)).del ("all_items") from rfl]
    rw [NodeCache.get_del_ne _ _ _ _ (itemKey_ne_allItems (toString id))]
    exact NodeCache.get_del_self _ _ _
  · exact NodeCache.get_del_self _ _ _
  · exact NodeCache.get_del_self _ _ _
  · intro k hk
    exact NodeCache.get_del_ne _ _ _ _ hk

/-- C4 witness: at a fresh service, invalidating item 1 leaves no item_1
    entry, and invalidating with no id leaves another key's read unchanged. -/
theorem C4_witness :
    (ItemService.invalidateCache ⟨[], NodeCache.empty 600, 0⟩ (some 1)).itemCache.get
        ("item_" ++ toString 1) 0 = none ∧
    (ItemService.invalidateCache ⟨[], NodeCache.empty 600, 0⟩ none).itemCache.get
        "item_7" 0 =
      (⟨[], NodeCache.empty 600, 0⟩ : ItemServiceState).itemCache.get ("item_7") 0 :=
  ⟨(C4_invalidate_cache ⟨[], NodeCache.empty 600, 0⟩ 1 0).1,
    (C4_invalidate_cache ⟨[], NodeCache.empty 600, 0⟩ 1 0).2.2.2 ("item_7") (by decide)⟩

/-- C6: item creation fails with a validation error when the name is empty
    or the price is negative, and succeeds for a non-empty name with
    price 0. -/
theorem C6_createItem_validation (now : Nat) (st : ItemServiceState)
    (input : CreateItemInput) :
    (input.name = "" ∨ input.price < 0 →
      ∃ m, ItemService.createItem now st input = .error m ∧
        containsSub m ("Validation failed") = true) ∧
    (input.name ≠ "" → input.price = 0 →
      ∃ it st', ItemService.createItem now st input = .ok (it, st')) := by
  constructor
  · intro h
    by_cases hn : input.name = ""
    · by_cases hp : input.price < 0
      · have herr : validateItemInput input.name input.price =
            ["Item name is required", "Price must be greater than or equal to 0"] := by
          simp [validateItemInput, hn, hp]
        refine ⟨"Validation failed: " ++ String.intercalate (", ")
            ["Item name is required", "Price must be greater than or equal to 0"],
          ?_, by decide⟩
        simp only [ItemService.createItem]
        rw [if_pos (by rw [herr]; exact by decide), herr]
      · have herr : validateItemInput input.name input.price =
            ["Item name is required"] := by
          simp [validateItemInput, hn, hp]
        refine ⟨"Validation failed: " ++ String.intercalate (", ")
            ["Item name is required"], ?_, by decide⟩
        simp only [ItemService.createItem]
        rw [if_pos (by rw [herr]; exact by decide), herr]
    · have hp : input.price < 0 := h.resolve_left hn
      have herr : validateItemInput input.name input.price =
          ["Price must be greater than or equal to 0"] := by
        simp [validateItemInput, hn, hp]
      refine ⟨"Validation failed: " ++ String.intercalate (", ")
          ["Price must be greater than or equal to 0"], ?_, by decide⟩
      simp only [ItemService.createItem]
      rw [if_pos (by rw [herr]; exact by decide), herr]
  · intro hn hp
    simp [ItemService.createItem, validateItemInput, hn, hp]

/-- C6 witness: price -1 with a non-empty name fails validation; price 0
    with a non-empty name succeeds. -/
theorem C6_witness :
    (∃ m, ItemService.createItem 0 ItemService.init ⟨"Widget", -1, none⟩ = .error m ∧
      containsSub m ("Validation failed") = true) ∧
    (∃ it st', ItemService.createItem 0 ItemService.init ⟨"Widget", 0, none⟩ =
      .ok (it, st')) :=
  ⟨(C6_createItem_validation 0 ItemService.init ⟨"Widget", -1, none⟩).1
      (Or.inr (by decide)),
    (C6_createItem_validation 0 ItemService.init ⟨"Widget", 0, none⟩).2
      (by decide) rfl⟩

/-- C9: getAll serves the single cached all-items entry when present, else
    fetches from the store and repopulates it with its own 300-second TTL
    (shorter than the 600-second per-item default); after a successful
    create, a getAll whose aggregate entry was invalidated or has expired
    returns the store contents, which include the new item. -/
theorem C9_getAll_cache_behavior (now : Nat) (st : ItemServiceState) :
    (∀ l, st.itemCache.get ("all_items") now = some (ItemCacheValue.all l) →
      ItemService.getAllItems now st = (l, st)) ∧
    (st.itemCache.get ("all_items") now = none →
      ItemService.getAllItems now st =
        (st.db,
          { st with itemCache := st.itemCache.setEntry ("all_items") (.all st.db) 300 now }) ∧
      ∀ t1, (st.itemCache.setEntry ("all_items") (.all st.db) 300 now).get ("all_items") t1 =
        if now + 300 * 1000 < t1 then none else some (.all st.db)) ∧
    ItemService.init.itemCache.stdTTL = 600 ∧
    (∀ input it st', ItemService.createItem now st input = .ok (it, st') →
      it ∈ st'.db ∧ st'.db = st.db ++ [it] ∧
      (∀ t2, st'.itemCache.get ("all_items") t2 = none →
        (ItemService.getAllItems t2 st').1 = st'.db) ∧
      (∀ t2, (ItemService.getAllItems t2 (ItemService.invalidateCache st' none)).1 =
        st'.db)) := by
  refine ⟨?_, ?_, rfl, ?_⟩
  · intro l h
    simp [ItemService.getAllItems, h, ItemCacheValue.asAll]
  · intro h
    refine ⟨by simp [ItemService.getAllItems, h], ?_⟩
    intro t1
    exact NodeCache.get_setEntry_self _ _ _ _ _ _ (by decide)
  · intro input it st' h
    have he : validateItemInput input.name input.price = [] := by
      by_contra hne
      simp [ItemService.createItem, hne] at h
    simp only [ItemService.createItem, he, ne_eq, not_true_eq_false, if_false,
      Except.ok.injEq, Prod.mk.injEq] at h
    obtain ⟨h1, h2⟩ := h
    refine ⟨?_, ?_, ?_, ?_⟩
    · rw [← h2, ← h1]
      simp
    · rw [← h2, ← h1]
    · intro t2 h2g
      simp [ItemService.getAllItems, h2g]
    · intro t2
      have hnone : (st'.itemCache.del ("all_items")).get ("all_items") t2 = none :=
        NodeCache.get_del_self _ _ _
      simp [ItemService.getAllItems, ItemService.invalidateCache, hnone]

/-- C9 witness: on a fresh service the aggregate entry misses, so getAll
    fetches the (empty) store and repopulates the aggregate entry. -/
theorem C9_witness :
    ItemService.getAllItems 0 ItemService.init =
      ([], ⟨[], (NodeCache.empty 600 : NodeCache ItemCacheValue).setEntry
        ("all_items") (.all []) 300 0, 0⟩) :=
  ((C9_getAll_cache_behavior 0 ItemService.init).2.1 rfl).1

/-- C1: registering an email that no stored record matches
    case-insensitively succeeds with the created public user, and a second
    registration of the same email (in any case) fails with the
    already-exists error, which the register controller maps to 409. -/
theorem C1_register_then_duplicate (env : String) (now : Nat) (st : UserServiceState)
    (input : RegisterUserInput)
    (hnorm : ∀ u ∈ st.db, toLowerString u.email = u.email)
    (hnew : ∀ u ∈ st.db, toLowerString u.email ≠ toLowerString input.email)
    (hvalid : validateUserInput (toLowerString input.email) input.password = []) :
    ∃ st' : UserServiceState,
      UserService.registerUser env now st input =
        .ok (⟨input.firstName, input.lastName, toLowerString input.email, false⟩, st') ∧
      (∀ (env2 : String) (now2 : Nat) (input2 : RegisterUserInput),
        toLowerString input2.email = toLowerString input.email →
          UserService.registerUser env2 now2 st' input2 =
            .error ("User registration failed: User with this email already exists")) ∧
      containsSub ("User registration failed: User with this email already exists")
          ("already exists") = true ∧
      registerStatusCode
          ("User registration failed: User with this email already exists") = 409 := by
  have hfind : st.db.find? (fun u => u.email == toLowerString input.email) = none := by
    rw [List.find?_eq_none]
    intro u hu hbeq
    have heq : u.email = toLowerString input.email := by simpa using hbeq
    have h1 := hnew u hu
    rw [hnorm u hu] at h1
    exact h1 heq
  refine ⟨⟨st.db ++ [⟨input.firstName, input.lastName, toLowerString input.email,
      Argon2.hash input.password, false⟩],
    st.userCache.set ("user:" ++ toLowerString input.email)
      (UserRecord.withoutPassword ⟨input.firstName, input.lastName,
        toLowerString input.email, Argon2.hash input.password, false⟩) now⟩,
    ?_, ?_, by decide, by decide⟩
  · simp only [UserService.registerUser, hfind]
    rw [if_neg (by simp [hvalid])]
    rfl
  · intro env2 now2 input2 h2
    have hfind2 : (st.db ++ [(⟨input.firstName, input.lastName, toLowerString input.email,
        Argon2.hash input.password, false⟩ : UserRecord)]).find?
          (fun u => u.email == toLowerString input2.email) =
        some ⟨input.firstName, input.lastName, toLowerString input.email,
          Argon2.hash input.password, false⟩ := by
      rw [h2, List.find?_append, hfind]
      simp
    simp only [UserService.registerUser, hfind2]

/-- C1 witness: a fresh store accepts Bob@Example.com and rejects the second
    registration with the already-exists error, mapped to 409. -/
theorem C1_witness :
    ∃ st' : UserServiceState,
      UserService.registerUser ("test") 0 UserService.init
          ⟨"Bob", "Jones", "Bob@Example.com", "secret123"⟩ =
        .ok (⟨"Bob", "Jones", toLowerString ("Bob@Example.com"), false⟩, st') ∧
      (∀ (env2 : String) (now2 : Nat) (input2 : RegisterUserInput),
        toLowerString input2.email = toLowerString ("Bob@Example.com") →
          UserService.registerUser env2 now2 st' input2 =
            .error ("User registration failed: User with this email already exists")) ∧
      containsSub ("User registration failed: User with this email already exists")
          ("already exists") = true ∧
      registerStatusCode
          ("User registration failed: User with this email already exists") = 409 :=
  C1_register_then_duplicate ("test") 0 UserService.init
    ⟨"Bob", "Jones", "Bob@Example.com", "secret123"⟩
    (by intro u hu; cases hu) (by intro u hu; cases hu) (by decide)

/-- C2: authenticating a never-stored email and authenticating a stored
    email with a wrong password fail with the identical outward error
    message. -/
theorem C2_auth_errors_indistinguishable (now1 now2 : Nat)
    (st1 st2 : UserServiceState) (e1 p1 e2 p2 : String) (u : UserRecord)
    (h1 : st1.db.find? (fun v => v.email == toLowerString e1) = none)
    (h2 : st2.db.find? (fun v => v.email == toLowerString e2) = some u)
    (h3 : Argon2.verify u.password p2 = .ok false) :
    UserService.authenticateUser now1 st1 e1 p1 =
      .error ("Authentication failed: Invalid email or password") ∧
    UserService.authenticateUser now2 st2 e2 p2 =
      .error ("Authentication failed: Invalid email or password") := by
  constructor
  · simp only [UserService.authenticateUser, h1]
  · simp only [UserService.authenticateUser, h2, UserRecord.comparePassword, h3]

/-- C2 witness: ghost@example.com (never stored) and alice@example.com with
    a wrong password produce the same message. -/
theorem C2_witness :
    UserService.authenticateUser 0 UserService.init ("ghost@example.com") "whatever1" =
      .error ("Authentication failed: Invalid email or password") ∧
    UserService.authenticateUser 0
        ⟨[⟨"Alice", "Smith", "alice@example.com", Argon2Hash.digest ("secret123"), false⟩],
          NodeCache.empty 300⟩ "alice@example.com" "wrong" =
      .error ("Authentication failed: Invalid email or password") :=
  C2_auth_errors_indistinguishable 0 0 UserService.init
    ⟨[⟨"Alice", "Smith", "alice@example.com", Argon2Hash.digest ("secret123"), false⟩],
      NodeCache.empty 300⟩
    "ghost@example.com" "whatever1" "alice@example.com" "wrong"
    ⟨"Alice", "Smith", "alice@example.com", Argon2Hash.digest ("secret123"), false⟩
    rfl (by decide) rfl

/-- C3: the claim that every value written to the user cache has the
    password field removed is the code's own stated intent, but
    findUserByEmail caches the fetched document's toObject(), which still
    carries the password: on a store holding alice, the cached value after
    findUserByEmail("alice@example.com") contains her password hash. -/
theorem C3_findUserByEmail_caches_password :
    (UserService.findUserByEmail 0
        ⟨[⟨"Alice", "Smith", "alice@example.com", Argon2Hash.digest ("secret123"), false⟩],
          NodeCache.empty 300⟩
        "alice@example.com").2.userCache.get ("user:alice@example.com") 0 =
      some ⟨"Alice", "Smith", "alice@example.com",
        some (Argon2Hash.digest ("secret123")), false⟩ := by decide

/-- C5 counterexample: a login failure that is not a credential failure (a
    corrupt stored digest makes comparePassword throw an internal error with
    a message different from the invalid-credentials one) is returned by the
    login controller with status 401, not 500 as the claim states. -/
theorem C5_counterexample :
    UserService.authenticateUser 0
        ⟨[⟨"Eve", "Jones", "eve@example.com", Argon2Hash.corrupt, false⟩],
          NodeCache.empty 300⟩ "eve@example.com" "pw12345678" =
      .error ("Authentication failed: Password comparison error: " ++
        "Error: pchstr must contain a $ as first char") ∧
    ("Authentication failed: Password comparison error: " ++
        "Error: pchstr must contain a $ as first char" ≠
      "Authentication failed: Invalid email or password") ∧
    loginStatusCode 0
        ⟨[⟨"Eve", "Jones", "eve@example.com", Argon2Hash.corrupt, false⟩],
          NodeCache.empty 300⟩ "eve@example.com" "pw12345678" = 401 ∧
    (401 : Nat) ≠ 500 :=
  ⟨rfl, by decide, by decide, by decide⟩

/-- C5 amended: at the login controller every service failure, internal
    errors included, is mapped to status 401 (the 500 catch-all of the
    taxonomy is not applied on this route); credential failures are 401. -/
theorem C5_login_failures_all_401 (now : Nat) (st : UserServiceState)
    (email password m : String) (hemail : email ≠ "") (hpassword : password ≠ "")
    (h : UserService.authenticateUser now st email password = .error m) :
    loginStatusCode now st email password = 401 := by
  simp only [loginStatusCode]
  rw [if_neg (by simp [hemail, hpassword]), h]

/-- C5 witness: the corrupt-digest login failure above is returned 401. -/
theorem C5_witness :
    loginStatusCode 0
        ⟨[⟨"Eve", "Jones", "eve@example.com", Argon2Hash.corrupt, false⟩],
          NodeCache.empty 300⟩ "eve@example.com" "pw12345678" = 401 :=
  C5_login_failures_all_401 0
    ⟨[⟨"Eve", "Jones", "eve@example.com", Argon2Hash.corrupt, false⟩],
      NodeCache.empty 300⟩ "eve@example.com" "pw12345678"
    ("Authentication failed: Password comparison error: " ++
      "Error: pchstr must contain a $ as first char")
    (by decide) (by decide) rfl

/-- C10: with all four fields present but violating the format constraints,
    registration raises a validation error in every environment other than
    production, while in production the same input is persisted with no
    validation error. -/
theorem C10_validation_skipped_in_production (now : Nat) (st : UserServiceState)
    (input : RegisterUserInput)
    (hnew : st.db.find? (fun u => u.email == toLowerString input.email) = none)
    (hbad : validateUserInput (toLowerString input.email) input.password ≠ []) :
    (∀ env, env ≠ "production" →
      ∃ m, UserService.registerUser env now st input = .error m ∧
        containsSub m ("Validation failed") = true) ∧
    ∃ st', UserService.registerUser ("production") now st input =
        .ok (⟨input.firstName, input.lastName, toLowerString input.email, false⟩, st') ∧
      st'.db = st.db ++ [⟨input.firstName, input.lastName, toLowerString input.email,
        Argon2.hash input.password, false⟩] := by
  constructor
  · intro env henv
    by_cases hem : isEmailShape (toLowerString input.email)
    · by_cases hpw : input.password.length ≥ 8
      · exact absurd (by simp [validateUserInput, hem, hpw]) hbad
      · have herr : validateUserInput (toLowerString input.email) input.password =
            ["password must be longer than or equal to 8 characters"] := by
          simp [validateUserInput, hem, hpw]
        refine ⟨"User registration failed: Validation failed: " ++
          String.intercalate ("; ")
            ["password must be longer than or equal to 8 characters"], ?_, by decide⟩
        simp only [UserService.registerUser, hnew]
        rw [if_pos ⟨henv, by rw [herr]; exact (by decide)⟩, herr]
    · by_cases hpw : input.password.length ≥ 8
      · have herr : validateUserInput (toLowerString input.email) input.password =
            ["email must be an email"] := by
          simp [validateUserInput, hem, hpw]
        refine ⟨"User registration failed: Validation failed: " ++
          String.intercalate ("; ") ["email must be an email"], ?_, by decide⟩
        simp only [UserService.registerUser, hnew]
        rw [if_pos ⟨henv, by rw [herr]; exact (by decide)⟩, herr]
      · have herr : validateUserInput (toLowerString input.email) input.password =
            ["email must be an email",
              "password must be longer than or equal to 8 characters"] := by
          simp [validateUserInput, hem, hpw]
        refine ⟨"User registration failed: Validation failed: " ++
          String.intercalate ("; ")
            ["email must be an email",
              "password must be longer than or equal to 8 characters"], ?_, by decide⟩
        simp only [UserService.registerUser, hnew]
        rw [if_pos ⟨henv, by rw [herr]; exact (by decide)⟩, herr]
  · refine ⟨⟨st.db ++ [⟨input.firstName, input.lastName, toLowerString input.email,
      Argon2.hash input.password, false⟩],
      st.userCache.set ("user:" ++ toLowerString input.email)
        (UserRecord.withoutPassword ⟨input.firstName, input.lastName,
          toLowerString input.email, Argon2.hash input.password, false⟩) now⟩,
      ?_, rfl⟩
    simp only [UserService.registerUser, hnew]
    rw [if_neg (by simp)]
    rfl

/-- C10 witness: a present-but-short password is rejected outside production
    and persisted in production. -/
theorem C10_witness :
    (∀ env, env ≠ "production" →
      ∃ m, UserService.registerUser env 0 UserService.init
          ⟨"Ann", "Lee", "ann@example.com", "short"⟩ = .error m ∧
        containsSub m ("Validation failed") = true) ∧
    ∃ st', UserService.registerUser ("production") 0 UserService.init
        ⟨"Ann", "Lee", "ann@example.com", "short"⟩ =
        .ok (⟨"Ann", "Lee", toLowerString ("ann@example.com"), false⟩, st') ∧
      st'.db = UserService.init.db ++
        [⟨"Ann", "Lee", toLowerString ("ann@example.com"),
          Argon2.hash ("short"), false⟩] :=
  C10_validation_skipped_in_production 0 UserService.init
    ⟨"Ann", "Lee", "ann@example.com", "short"⟩ rfl (by decide)
